import Mathlib

/-!
Verification of the orchestration and weather-tool logic of `agent.py`.

The file shallowly embeds the two units of the source:
  * `Assistant.get_weather` (agent.py lines 36-63), and
  * `entrypoint`            (agent.py lines 67-153).
External collaborators (the HTTP client, `json.loads`, the egress client,
the SIP client, the session engine) are modelled as oracles supplied in an
environment record; the control flow, string literals and branch conditions
are translated from the source line by line.
-/

namespace AgentPy

/-- A JSON number as it flows through the Python code: `val` is its rational
value (used for truthiness) and `render` is the text Python produces when the
value is interpolated into an f-string (`str()` of the parsed `int`/`float`). -/
structure PyNum where
  val : Rat
  render : String

/-- A parsed JSON value, the result type of `json.loads` / `response.json()`.
Objects are the parsed dict (association list of string keys, no duplicates). -/
inductive Json where
  | obj (fields : List (String × Json))
  | arr (items : List Json)
  | str (s : String)
  | num (n : PyNum)
  | bool (b : Bool)
  | null

/-- Python truthiness (`if x:`) of a parsed JSON value. -/
def pyTruthy : Json → Bool
  | .obj fields => !fields.isEmpty
  | .arr items => !items.isEmpty
  | .str s => !(s == "")
  | .num n => if n.val = 0 then false else true
  | .bool b => b
  | .null => false

/-- `dict.get(k)` on a parsed JSON object (association list lookup). -/
def lookupField (fields : List (String × Json)) (k : String) : Option Json :=
  match fields with
  | [] => none
  | p :: rest => if p.1 == k then some p.2 else lookupField rest k

/-- Substring check, Python `sub in s` for strings. -/
def strContainsSub (s sub : String) : Bool :=
  (List.range (s.length + 1)).any
    (fun i => ((s.data.drop i).take sub.length) == sub.data)

/-- Python `k in x` for a parsed JSON value `x` and a string `k`.
Raises `TypeError` (modelled as `.error`) when `x` is not a container. -/
def pyContains : Json → String → Except String Bool
  | .obj fields, k => .ok (fields.any (fun p => p.1 == k))
  | .arr items, k =>
      .ok (items.any (fun j => match j with | .str s => s == k | _ => false))
  | .str s, k => .ok (strContainsSub s k)
  | .num _, _ => .error "TypeError"
  | .bool _, _ => .error "TypeError"
  | .null, _ => .error "TypeError"

/-- Python `x[k]` with a string key `k`: dict lookup (`KeyError` when the key
is absent), `TypeError` on any non-dict value. -/
def pyGetItemStr : Json → String → Except String Json
  | .obj fields, k =>
      match lookupField fields k with
      | some v => .ok v
      | none => .error "KeyError"
  | .arr _, _ => .error "TypeError"
  | .str _, _ => .error "TypeError"
  | .num _, _ => .error "TypeError"
  | .bool _, _ => .error "TypeError"
  | .null, _ => .error "TypeError"

/-- Python `x[i]` with an integer index: list/string indexing (`IndexError`
out of range), `KeyError` on a JSON-derived dict (its keys are strings),
`TypeError` otherwise. -/
def pyGetItemNat : Json → Nat → Except String Json
  | .arr items, i =>
      match items.get? i with
      | some j => .ok j
      | none => .error "IndexError"
  | .str s, i =>
      match s.data.get? i with
      | some c => .ok (.str (String.mk [c]))
      | none => .error "IndexError"
  | .obj _, _ => .error "KeyError"
  | .num _, _ => .error "TypeError"
  | .bool _, _ => .error "TypeError"
  | .null, _ => .error "TypeError"

/-- Python `repr()` of a parsed JSON value (used when a container is
interpolated into an f-string). -/
def pyRepr : Json → String
  | .str s => "\x27" ++ s ++ "\x27"
  | .num n => n.render
  | .bool b => if b then "True" else "False"
  | .null => "None"
  | .arr items =>
      "[" ++ String.intercalate ", " (items.attach.map (fun x => pyRepr x.1)) ++ "]"
  | .obj fields =>
      "\x7b" ++
        String.intercalate ", "
          (fields.attach.map (fun x => "\x27" ++ x.1.1 ++ "\x27: " ++ pyRepr x.1.2)) ++
      "\x7d"
termination_by j => sizeOf j
decreasing_by
  all_goals
    simp_wf
  all_goals
    have h1 := List.sizeOf_lt_of_mem x.2
    try obtain ⟨⟨a, b⟩, hx⟩ := x
  all_goals
    simp_all
  all_goals
    omega

/-- Python `str()` / f-string interpolation of a parsed JSON value. -/
def pyStr : Json → String
  | .str s => s
  | .num n => n.render
  | .bool b => if b then "True" else "False"
  | .null => "None"
  | .arr items => pyRepr (.arr items)
  | .obj fields => pyRepr (.obj fields)

/-! ## The weather tool (agent.py lines 36-63) -/

/-- The result of `session.get(url)` followed by reading the response:
the integer HTTP status and the outcome of `await response.json()`
(`.error` models the exception raised on a non-JSON body). -/
structure HttpResp where
  status : Nat
  jsonBody : Except String Json

/-- `"OpenWeather API key is not set."` (agent.py line 46). -/
def keyNotSetMsg : String := "OpenWeather API key is not set."

/-- The non-200 sentence (agent.py line 53). -/
def statusMsg (status : Nat) : String :=
  "Sorry, I couldn\x27t get the weather. Status code: " ++ toString status

/-- The no-data sentence (agent.py line 58). -/
def noDataMsg : String := "Sorry, I couldn\x27t find any weather data for that location."

/-- The success sentence (agent.py line 63), an f-string over the location,
the description and the temperature. -/
def weatherSentence (location description tempText : String) : String :=
  "The weather in " ++ location ++ " is " ++ description ++
    " with a temperature of " ++ tempText ++ "°C."

/-- The request URL f-string (agent.py line 48). -/
def weatherUrl (location apiKey : String) : String :=
  "http://api.openweathermap.org/data/2.5/weather?q=" ++ location ++
    "&appid=" ++ apiKey ++ "&units=metric"

/-- agent.py lines 57-63: the body of `get_weather` after a 200 response has
been parsed into `data`. Each subscript can raise (modelled as `.error`),
mirroring `data["weather"][0]["description"]` and `data["main"]["temp"]`. -/
def weatherFromData (location : String) (data : Json) : Except String String :=
  match pyContains data "weather" with
  | .error e => .error e
  | .ok hasW =>
    if !hasW then .ok noDataMsg
    else
      match pyGetItemStr data "weather" with
      | .error e => .error e
      | .ok w =>
        if !pyTruthy w then .ok noDataMsg
        else
          match pyGetItemNat w 0 with
          | .error e => .error e
          | .ok w0 =>
            match pyGetItemStr w0 "description" with
            | .error e => .error e
            | .ok description =>
              match pyGetItemStr data "main" with
              | .error e => .error e
              | .ok mainObj =>
                match pyGetItemStr mainObj "temp" with
                | .error e => .error e
                | .ok temp =>
                  .ok (weatherSentence location (pyStr description) (pyStr temp))

/-- agent.py lines 50-63: the `async with session.get(url)` block.
`http url` models the GET (`.error` is a raised network exception). -/
def weatherRequest (http : String → Except String HttpResp) (url : String)
    (location : String) : Except String String :=
  match http url with
  | .error e => .error e
  | .ok resp =>
    if resp.status ≠ 200 then .ok (statusMsg resp.status)
    else
      match resp.jsonBody with
      | .error e => .error e
      | .ok data => weatherFromData location data

/-- agent.py lines 36-63, `Assistant.get_weather`. `apiKey` is
`os.environ.get("OPENWEATHER_API_KEY")`; the second component of the result
is the list of URLs actually fetched (empty when the key check short-circuits).
The first component is `.ok sentence` for a normal return and `.error e` for
an exception escaping the method. -/
def get_weather (apiKey : Option String) (http : String → Except String HttpResp)
    (location : String) : Except String String × List String :=
  match apiKey with
  | none => (.ok keyNotSetMsg, [])
  | some key =>
    if key = "" then (.ok keyNotSetMsg, [])
    else
      let url := weatherUrl location key
      (weatherRequest http url location, [url])

/-! ## The job orchestrator (agent.py lines 67-153) -/

/-- The outcome of the blocking `create_sip_participant` call:
`answered` for a normal return, `failed reason` for a raised
`api.TwirpError` (e.g. the call was not answered). -/
inductive DialOutcome where
  | answered
  | failed (reason : String)

/-- The fields of the `CreateSIPParticipantRequest` built at agent.py
lines 115-121. `sipCallTo` and `participantIdentity` carry the raw value
taken from the metadata, exactly as the source passes it through. -/
structure DialRequest where
  roomName : String
  sipTrunkId : String
  sipCallTo : Json
  participantIdentity : Json
  waitUntilAnswered : Bool

/-- The externally visible actions the orchestrator performs, in order. -/
inductive Event where
  | egressOk (id : String)
  | egressFailed (msg : String)
  | dialRequested (req : DialRequest)
  | shutdown
  | sessionConstructed
  | sessionStarted
  | greetingRequested (instructions : String)

/-- Final job outcome as the hosting worker sees it. -/
inductive Outcome where
  | completed
  | aborted
deriving DecidableEq

/-- What one run of `entrypoint` did: the ordered external actions, the job
outcome, and the uncaught exception (if any) that escaped the function. -/
structure RunResult where
  events : List Event
  outcome : Outcome
  exn : Option String

/-- The oracles behind one job: room connect outcome, the whole egress
try-block (agent.py lines 73-99, `.ok id` on success and `.error e` for any
raised exception), the job metadata string, the behaviour of `json.loads`
on it, the SIP client, and whether `session.start` succeeds. -/
structure Env where
  connectOk : Bool
  egressResult : Except String String
  roomName : String
  metadata : Option String
  parseJson : String → Option Json
  dial : DialRequest → DialOutcome
  sessionStartOk : Bool

/-- agent.py lines 102-108: resolve `phone_number` from the job metadata.
`.ok v` is the value of the Python variable `phone_number` after the block
(`none` = Python `None`); `.error` is an uncaught exception — the source
catches only `json.JSONDecodeError`, so `.get` on a decoded non-dict value
raises `AttributeError` past the block. -/
def resolvePhone (env : Env) : Except String (Option Json) :=
  match env.metadata with
  | none => .ok none
  | some s =>
    if s = "" then .ok none
    else
      match env.parseJson s with
      | none => .ok none
      | some (.obj fields) => .ok (lookupField fields "phone_number")
      | some _ => .error "AttributeError"

/-- The derived call intent of the spec: `Inbound` when no truthy phone
number was resolved, `Outbound` with the resolved value otherwise. -/
inductive CallIntent where
  | inbound
  | outbound (phone : Json)

/-- The call intent of a job, or the uncaught exception raised while
resolving the metadata. -/
def resolveIntent (env : Env) : Except String CallIntent :=
  match resolvePhone env with
  | .error e => .error e
  | .ok none => .ok .inbound
  | .ok (some j) => if pyTruthy j then .ok (.outbound j) else .ok .inbound

/-- Boolean form of `resolveIntent env = .ok .inbound`. -/
def intentInbound (env : Env) : Bool :=
  match resolvePhone env with
  | .error _ => false
  | .ok none => true
  | .ok (some j) => !pyTruthy j

/-- The request built at agent.py lines 115-121: fixed trunk id, the phone
value as both destination and participant identity, wait-until-answered. -/
def mkDialRequest (roomName : String) (phone : Json) : DialRequest :=
  { roomName := roomName
    sipTrunkId := "ST_p7QcFHJKXXUM"
    sipCallTo := phone
    participantIdentity := phone
    waitUntilAnswered := true }

/-- agent.py line 111 `if phone_number:` plus the dial call: `some` exactly
when the resolved value is truthy, paired with the outcome from the SIP client. -/
def dialStep (env : Env) (phoneOpt : Option Json) :
    Option (DialRequest × DialOutcome) :=
  match phoneOpt with
  | none => none
  | some p =>
    if pyTruthy p then
      let req := mkDialRequest env.roomName p
      some (req, env.dial req)
    else none

/-- The greeting instructions (agent.py line 152). -/
def greetInstructions : String := "Greet the user and offer your assistance."

/-- agent.py lines 130-153: construct the `AgentSession`, start it, and for
a falsy `phone_number` request the greeting. A `session.start` failure is an
uncaught exception, raised after the session object was constructed. -/
def sessionPart (env : Env) (phoneTruthy : Bool) (dialEvents : List Event) :
    RunResult :=
  if env.sessionStartOk then
    if phoneTruthy then
      { events := dialEvents ++ [.sessionConstructed, .sessionStarted]
        outcome := .completed, exn := none }
    else
      { events := dialEvents ++
          [.sessionConstructed, .sessionStarted, .greetingRequested greetInstructions]
        outcome := .completed, exn := none }
  else
    { events := dialEvents ++ [.sessionConstructed]
      outcome := .aborted, exn := some "SessionStartError" }

/-- agent.py lines 101-153: everything after the egress try-block. On a
`TwirpError` from the dial the source logs, calls `ctx.shutdown()` and
returns (job aborted); an `AttributeError` from the metadata block escapes. -/
def corePart (env : Env) : RunResult :=
  match resolvePhone env with
  | .error e => { events := [], outcome := .aborted, exn := some e }
  | .ok phoneOpt =>
    match dialStep env phoneOpt with
    | some (req, .failed _reason) =>
      { events := [.dialRequested req, .shutdown], outcome := .aborted, exn := none }
    | some (req, .answered) => sessionPart env true [.dialRequested req]
    | none => sessionPart env false []

/-- The logged outcome of the egress try-block (agent.py lines 73-99):
success prints the egress id, any exception is caught and printed. -/
def egressEvents (env : Env) : List Event :=
  match env.egressResult with
  | .ok id => [.egressOk id]
  | .error e => [.egressFailed e]

/-- agent.py lines 67-153, `entrypoint`. A failing `ctx.connect()` raises
before anything else runs; otherwise the egress block runs (its failure is
swallowed) and then the metadata/dial/session/greeting sequence. -/
def entrypoint (env : Env) : RunResult :=
  if env.connectOk = false then
    { events := [], outcome := .aborted, exn := some "ConnectError" }
  else
    let core := corePart env
    { events := egressEvents env ++ core.events
      outcome := core.outcome
      exn := core.exn }

/-! ## Trace observables -/

/-- Number of dial (SIP participant creation) attempts in a trace. -/
def dials : List Event → Nat
  | [] => 0
  | .dialRequested _ :: rest => dials rest + 1
  | _ :: rest => dials rest

/-- Number of greeting (`generate_reply`) requests in a trace. -/
def greetings : List Event → Nat
  | [] => 0
  | .greetingRequested _ :: rest => greetings rest + 1
  | _ :: rest => greetings rest

/-- Whether the `AgentSession` object was ever constructed. -/
def hasSessionConstructed : List Event → Bool
  | [] => false
  | .sessionConstructed :: _ => true
  | _ :: rest => hasSessionConstructed rest

/-- Whether `session.start` completed successfully. -/
def hasSessionStarted : List Event → Bool
  | [] => false
  | .sessionStarted :: _ => true
  | _ :: rest => hasSessionStarted rest

/-- Whether the orchestrator called `ctx.shutdown()`. -/
def hasShutdown : List Event → Bool
  | [] => false
  | .shutdown :: _ => true
  | _ :: rest => hasShutdown rest

/-! ## Spec-side definitions -/

/-- Modelled from the spec: "fixed one-decimal Celsius formatting" of a
temperature — the value rounded to one decimal place (`n` is
`floor(q * 10 + 1/2)`, computed on the numerator and denominator with
integer floor division) and rendered as `intPart.tenths`. Used only to
compare the wording of the spec against the formatting in the source. -/
def specOneDecimal (q : Rat) : String :=
  let n := Int.fdiv (20 * q.num + (q.den : Int)) (2 * (q.den : Int))
  toString (Int.fdiv n 10) ++ "." ++ toString ((Int.emod n 10).natAbs)

/-- Response bodies on which every exit path of the weather tool is a normal
return: a JSON object whose `weather` entry is absent or falsy, or is a
non-empty array headed by an object with a `description`, alongside a `main`
object with a `temp`. -/
def BenignData (d : Json) : Prop :=
  ∃ fields, d = Json.obj fields ∧
    (lookupField fields "weather" = none ∨
     (∃ w, lookupField fields "weather" = some w ∧ pyTruthy w = false) ∨
     (∃ rest f0 mf, lookupField fields "weather" = some (.arr (Json.obj f0 :: rest)) ∧
        (lookupField f0 "description").isSome = true ∧
        lookupField fields "main" = some (.obj mf) ∧
        (lookupField mf "temp").isSome = true))

/-- Provider behaviours on which the weather tool cannot raise: the GET
succeeds and either the status is not 200 or the body is benign JSON. -/
def BenignResp (res : Except String HttpResp) : Prop :=
  ∃ r, res = Except.ok r ∧
    (r.status ≠ 200 ∨ ∃ d, r.jsonBody = Except.ok d ∧ BenignData d)

/-! ## Concrete inputs used by witnesses and counterexamples -/

/-- A 200 body with description `clear sky` and temperature `21.3`. -/
def bodyFull : Json :=
  .obj [("weather", .arr [.obj [("description", .str "clear sky")]]),
        ("main", .obj [("temp", .num ⟨mkRat 213 10, "21.3"⟩)])]

/-- A 200 body with description `clear sky` and temperature `21.33`
(Python renders the parsed float as `21.33`). -/
def bodyTemp2133 : Json :=
  .obj [("weather", .arr [.obj [("description", .str "clear sky")]]),
        ("main", .obj [("temp", .num ⟨mkRat 2133 100, "21.33"⟩)])]

/-- A 200 body carrying weather data but no `main` entry. -/
def bodyNoMain : Json :=
  .obj [("weather", .arr [.obj [("description", .str "clear sky")]])]

/-- A body whose `weather` entry is an empty array. -/
def bodyEmptyWeather : Json := .obj [("weather", .arr [])]

/-- An outbound job (metadata resolves to phone `+15551234567`) whose dial
fails with a `TwirpError`. -/
def envDialFail : Env :=
  { connectOk := true
    egressResult := .ok "EG_1"
    roomName := "room1"
    metadata := some "m"
    parseJson := fun _ => some (.obj [("phone_number", .str "+15551234567")])
    dial := fun _ => .failed "call not answered"
    sessionStartOk := true }

/-- An outbound job whose dial is answered and whose session starts. -/
def envOutboundOk : Env :=
  { envDialFail with dial := fun _ => .answered }

/-- An inbound job (no metadata) with a failing egress client. -/
def envInboundEgressFail : Env :=
  { connectOk := true
    egressResult := .error "S3 auth failure"
    roomName := "room1"
    metadata := none
    parseJson := fun _ => none
    dial := fun _ => .answered
    sessionStartOk := true }

/-- A job whose metadata is the string `[]`: valid JSON, so
`json.loads` succeeds with a list, and `.get` then raises. -/
def envMetaList : Env :=
  { connectOk := true
    egressResult := .ok "EG_1"
    roomName := "room1"
    metadata := some "[]"
    parseJson := fun s => if s = "[]" then some (.arr []) else none
    dial := fun _ => .answered
    sessionStartOk := true }

/-- A job whose metadata parses to an object carrying `phone_number = ""`. -/
def envEmptyPhone : Env :=
  { connectOk := true
    egressResult := .ok "EG_1"
    roomName := "room1"
    metadata := some "m"
    parseJson := fun _ => some (.obj [("phone_number", .str "")])
    dial := fun _ => .answered
    sessionStartOk := true }

/-! ## Helper lemmas -/

theorem dials_append (a b : List Event) : dials (a ++ b) = dials a + dials b := by
  induction a with
  | nil => simp [dials]
  | cons e rest ih => cases e <;> simp [dials, ih] <;> omega

theorem greetings_append (a b : List Event) :
    greetings (a ++ b) = greetings a + greetings b := by
  induction a with
  | nil => simp [greetings]
  | cons e rest ih => cases e <;> simp [greetings, ih] <;> omega

theorem hasSessionConstructed_append (a b : List Event) :
    hasSessionConstructed (a ++ b) =
      (hasSessionConstructed a || hasSessionConstructed b) := by
  induction a with
  | nil => simp [hasSessionConstructed]
  | cons e rest ih => cases e <;> simp [hasSessionConstructed, ih]

theorem hasSessionStarted_append (a b : List Event) :
    hasSessionStarted (a ++ b) =
      (hasSessionStarted a || hasSessionStarted b) := by
  induction a with
  | nil => simp [hasSessionStarted]
  | cons e rest ih => cases e <;> simp [hasSessionStarted, ih]

theorem hasShutdown_append (a b : List Event) :
    hasShutdown (a ++ b) = (hasShutdown a || hasShutdown b) := by
  induction a with
  | nil => simp [hasShutdown]
  | cons e rest ih => cases e <;> simp [hasShutdown, ih]

theorem egress_obs (env : Env) :
    dials (egressEvents env) = 0 ∧ greetings (egressEvents env) = 0 ∧
    hasSessionConstructed (egressEvents env) = false ∧
    hasSessionStarted (egressEvents env) = false ∧
    hasShutdown (egressEvents env) = false := by
  cases h : env.egressResult <;>
    simp [egressEvents, h, dials, greetings, hasSessionConstructed,
      hasSessionStarted, hasShutdown]

theorem entrypoint_connected (env : Env) (hconn : env.connectOk = true) :
    entrypoint env =
      { events := egressEvents env ++ (corePart env).events
        outcome := (corePart env).outcome
        exn := (corePart env).exn } := by
  simp [entrypoint, hconn]

theorem resolveIntent_outbound (env : Env) (p : Json)
    (h : resolveIntent env = Except.ok (CallIntent.outbound p)) :
    resolvePhone env = Except.ok (some p) ∧ pyTruthy p = true := by
  unfold resolveIntent at h
  rcases hp : resolvePhone env with e | popt <;> rw [hp] at h
  · simp at h
  · cases popt with
    | none => simp at h
    | some j =>
      cases ht : pyTruthy j <;> simp [ht] at h
      subst h
      exact ⟨rfl, ht⟩

theorem intentInbound_iff (env : Env) :
    intentInbound env = true ↔ resolveIntent env = Except.ok CallIntent.inbound := by
  unfold intentInbound resolveIntent
  rcases hp : resolvePhone env with e | popt
  · simp
  · cases popt with
    | none => simp
    | some j => cases ht : pyTruthy j <;> simp [ht]

/-! ## Claims -/

/-- C1: for every job whose metadata resolves to a (truthy, string-valued)
phone number, exactly one dial is attempted; and if that dial fails, the
`AgentSession` is never constructed, the orchestrator shuts the job down,
and the outcome of the job is aborted. -/
theorem dial_once_and_failure_aborts (env : Env) (p : Json)
    (hconn : env.connectOk = true)
    (hout : resolveIntent env = Except.ok (CallIntent.outbound p)) :
    dials (entrypoint env).events = 1 ∧
    ∀ reason, env.dial (mkDialRequest env.roomName p) = DialOutcome.failed reason →
      hasSessionConstructed (entrypoint env).events = false ∧
      hasShutdown (entrypoint env).events = true ∧
      (entrypoint env).outcome = Outcome.aborted := by
  obtain ⟨hp, ht⟩ := resolveIntent_outbound env p hout
  rw [entrypoint_connected env hconn]
  obtain ⟨hd0, -, hc0, -, hs0⟩ := egress_obs env
  simp only [corePart, hp, dialStep, ht, if_true]
  cases hd : env.dial (mkDialRequest env.roomName p)
  case answered =>
    refine ⟨?_, ?_⟩
    · cases hs : env.sessionStartOk <;>
        simp [sessionPart, hs, dials_append, hd0, dials]
    · intro reason habs
      exact absurd habs (by simp)
  case failed r =>
    refine ⟨?_, ?_⟩
    · simp [dials_append, hd0, dials]
    · intro reason _
      refine ⟨?_, ?_, rfl⟩
      · simp [hasSessionConstructed_append, hc0, hasSessionConstructed]
      · simp [hasShutdown_append, hs0, hasShutdown]

/-- C1 witness: a concrete outbound job whose dial fails. -/
theorem dial_once_and_failure_aborts_witness :
    dials (entrypoint envDialFail).events = 1 ∧
    hasSessionConstructed (entrypoint envDialFail).events = false ∧
    hasShutdown (entrypoint envDialFail).events = true ∧
    (entrypoint envDialFail).outcome = Outcome.aborted := by
  have h := dial_once_and_failure_aborts envDialFail (.str "+15551234567") rfl rfl
  obtain ⟨h1, h2⟩ := h
  obtain ⟨h3, h4, h5⟩ := h2 "call not answered" rfl
  exact ⟨h1, h3, h4, h5⟩

theorem resolveIntent_inbound (env : Env)
    (h : resolveIntent env = Except.ok CallIntent.inbound) :
    ∃ popt, resolvePhone env = Except.ok popt ∧ dialStep env popt = none := by
  unfold resolveIntent at h
  rcases hp : resolvePhone env with e | popt <;> rw [hp] at h
  · simp at h
  · cases popt with
    | none => exact ⟨none, rfl, by simp [dialStep]⟩
    | some j =>
      cases ht : pyTruthy j <;> simp [ht] at h
      exact ⟨some j, rfl, by simp [dialStep, ht]⟩

theorem corePart_egress_indep (env : Env) (r : Except String String) :
    corePart { env with egressResult := r } = corePart env := rfl

/-- C2: an egress (recording-start) failure is caught and logged, and the
job proceeds regardless: an inbound job with a failing egress client still
starts the session, sends the greeting and completes; and the job outcome
never depends on the egress result at all. -/
theorem egress_failure_nonfatal (env : Env) (e : String)
    (hconn : env.connectOk = true)
    (heg : env.egressResult = Except.error e)
    (hin : resolveIntent env = Except.ok CallIntent.inbound)
    (hsess : env.sessionStartOk = true) :
    (entrypoint env).outcome = Outcome.completed ∧
    hasSessionStarted (entrypoint env).events = true ∧
    greetings (entrypoint env).events = 1 ∧
    Event.egressFailed e ∈ (entrypoint env).events ∧
    ∀ r, (entrypoint { env with egressResult := r }).outcome =
      (entrypoint env).outcome := by
  obtain ⟨popt, hp, hds⟩ := resolveIntent_inbound env hin
  rw [entrypoint_connected env hconn]
  obtain ⟨-, hg0, -, hst0, -⟩ := egress_obs env
  refine ⟨?_, ?_, ?_, ?_, ?_⟩
  · simp [corePart, hp, hds, sessionPart, hsess]
  · simp only [corePart, hp, hds, sessionPart, hsess, if_true]
    simp [hasSessionStarted_append, hst0, hasSessionStarted]
  · simp only [corePart, hp, hds, sessionPart, hsess, if_true]
    simp [greetings_append, hg0, greetings]
  · simp [egressEvents, heg]
  · intro r
    rw [entrypoint_connected { env with egressResult := r } hconn]
    simp [corePart_egress_indep]

/-- C2 witness: a concrete inbound job with a failing egress client. -/
theorem egress_failure_nonfatal_witness :
    (entrypoint envInboundEgressFail).outcome = Outcome.completed ∧
    hasSessionStarted (entrypoint envInboundEgressFail).events = true ∧
    greetings (entrypoint envInboundEgressFail).events = 1 := by
  have h := egress_failure_nonfatal envInboundEgressFail "S3 auth failure"
    rfl rfl rfl rfl
  exact ⟨h.1, h.2.1, h.2.2.1⟩

/-- C3 counterexample: metadata `[]` is valid JSON that carries no
`phone_number` field, yet the job does not resolve to an inbound intent —
`metadata.get` raises an uncaught `AttributeError` (only
`json.JSONDecodeError` is caught), and the job dies before any session. -/
theorem metadata_list_fatal :
    resolveIntent envMetaList = Except.error "AttributeError" ∧
    (entrypoint envMetaList).exn = some "AttributeError" ∧
    (entrypoint envMetaList).outcome = Outcome.aborted ∧
    dials (entrypoint envMetaList).events = 0 ∧
    hasSessionConstructed (entrypoint envMetaList).events = false :=
  ⟨rfl, rfl, rfl, rfl, rfl⟩

/-- C3 (amended): metadata that is absent, or empty, or fails JSON decoding,
or decodes to a JSON object without a truthy `phone_number`, resolves to the
inbound intent, never dials, and is not fatal (the job reaches session
construction). Metadata decoding to a non-object JSON value, however,
raises an uncaught `AttributeError` (see the counterexample). -/
theorem metadata_benign_inbound (env : Env)
    (hconn : env.connectOk = true)
    (hmeta : env.metadata = none ∨
      ∃ s, env.metadata = some s ∧
        (s = "" ∨ env.parseJson s = none ∨
         ∃ fields, env.parseJson s = some (.obj fields) ∧
           ∀ j, lookupField fields "phone_number" = some j → pyTruthy j = false)) :
    resolveIntent env = Except.ok CallIntent.inbound ∧
    dials (entrypoint env).events = 0 ∧
    hasSessionConstructed (entrypoint env).events = true := by
  have hin : resolveIntent env = Except.ok CallIntent.inbound := by
    rcases hmeta with hm | ⟨s, hm, hs⟩
    · simp [resolveIntent, resolvePhone, hm]
    · rcases hs with hs0 | hparse | ⟨fields, hparse, hfk⟩
      · simp [resolveIntent, resolvePhone, hm, hs0]
      · by_cases hs0 : s = "" <;>
          simp [resolveIntent, resolvePhone, hm, hs0, hparse]
      · by_cases hs0 : s = ""
        · simp [resolveIntent, resolvePhone, hm, hs0]
        · cases hl : lookupField fields "phone_number" with
          | none => simp [resolveIntent, resolvePhone, hm, hs0, hparse, hl]
          | some j =>
            have hj := hfk j hl
            simp [resolveIntent, resolvePhone, hm, hs0, hparse, hl, hj]
  obtain ⟨popt, hp, hds⟩ := resolveIntent_inbound env hin
  rw [entrypoint_connected env hconn]
  obtain ⟨hd0, -, hc0, -, -⟩ := egress_obs env
  refine ⟨hin, ?_, ?_⟩
  · cases hs : env.sessionStartOk <;>
      simp [corePart, hp, hds, sessionPart, hs, dials_append, hd0, dials]
  · cases hs : env.sessionStartOk <;>
      simp [corePart, hp, hds, sessionPart, hs, hasSessionConstructed_append,
        hc0, hasSessionConstructed]

/-- C3 (amended) witness: a job with no metadata at all. -/
theorem metadata_benign_inbound_witness :
    resolveIntent envInboundEgressFail = Except.ok CallIntent.inbound ∧
    dials (entrypoint envInboundEgressFail).events = 0 ∧
    hasSessionConstructed (entrypoint envInboundEgressFail).events = true :=
  metadata_benign_inbound envInboundEgressFail rfl (Or.inl rfl)

/-- C5: the greeting request is issued exactly once when the call intent is
inbound, the room connect succeeded and the session started, and zero times
otherwise — in particular zero times for any outbound intent. -/
theorem greeting_exactly_when_inbound (env : Env) :
    greetings (entrypoint env).events =
      (if intentInbound env && env.connectOk && env.sessionStartOk then 1 else 0) ∧
    (intentInbound env = true ↔ resolveIntent env = Except.ok CallIntent.inbound) := by
  refine ⟨?_, intentInbound_iff env⟩
  cases hc : env.connectOk
  · simp [entrypoint, hc, greetings]
  · rw [entrypoint_connected env hc]
    have hg0 := (egress_obs env).2.1
    rcases hp : resolvePhone env with e | popt
    · simp [corePart, hp, greetings_append, hg0, greetings, intentInbound]
    · cases popt with
      | none =>
        cases hs : env.sessionStartOk <;>
          simp [corePart, hp, dialStep, sessionPart, hs, greetings_append, hg0,
            greetings, intentInbound, hc]
      | some j =>
        cases ht : pyTruthy j
        · cases hs : env.sessionStartOk <;>
            simp [corePart, hp, dialStep, ht, sessionPart, hs, greetings_append,
              hg0, greetings, intentInbound, hc]
        · cases hd : env.dial (mkDialRequest env.roomName j)
          · cases hs : env.sessionStartOk <;>
              simp [corePart, hp, dialStep, ht, hd, sessionPart, hs,
                greetings_append, hg0, greetings, intentInbound, hc]
          · simp [corePart, hp, dialStep, ht, hd, greetings_append, hg0,
              greetings, intentInbound, hc]

/-- C9: every dial request the orchestrator ever issues uses the fixed trunk
id `ST_p7QcFHJKXXUM`, the room name of the job, the resolved phone number as both
destination and participant identity, and wait-until-answered set to true. -/
theorem dial_request_fields (env : Env) (req : DialRequest)
    (h : Event.dialRequested req ∈ (entrypoint env).events) :
    req.sipTrunkId = "ST_p7QcFHJKXXUM" ∧
    req.participantIdentity = req.sipCallTo ∧
    req.waitUntilAnswered = true ∧
    req.roomName = env.roomName ∧
    resolveIntent env = Except.ok (CallIntent.outbound req.sipCallTo) := by
  cases hc : env.connectOk
  · simp [entrypoint, hc] at h
  · rw [entrypoint_connected env hc] at h
    rw [List.mem_append] at h
    rcases h with h | h
    · cases he : env.egressResult <;> simp [egressEvents, he] at h
    · rcases hp : resolvePhone env with e | popt
      · simp [corePart, hp] at h
      · cases popt with
        | none =>
          cases hs : env.sessionStartOk <;>
            simp [corePart, hp, dialStep, sessionPart, hs] at h
        | some j =>
          cases ht : pyTruthy j
          · cases hs : env.sessionStartOk <;>
              simp [corePart, hp, dialStep, ht, sessionPart, hs] at h
          · cases hd : env.dial (mkDialRequest env.roomName j)
            · cases hs : env.sessionStartOk <;>
                simp [corePart, hp, dialStep, ht, hd, sessionPart, hs] at h <;>
                subst h <;>
                exact ⟨rfl, rfl, rfl, rfl, by simp [resolveIntent, hp, ht, mkDialRequest]⟩
            · simp [corePart, hp, dialStep, ht, hd] at h
              subst h
              exact ⟨rfl, rfl, rfl, rfl, by simp [resolveIntent, hp, ht, mkDialRequest]⟩

/-- C9 witness: the concrete dial issued by a successful outbound job. -/
theorem dial_request_fields_witness :
    (mkDialRequest "room1" (Json.str "+15551234567")).sipTrunkId = "ST_p7QcFHJKXXUM" ∧
    (mkDialRequest "room1" (Json.str "+15551234567")).participantIdentity =
      (mkDialRequest "room1" (Json.str "+15551234567")).sipCallTo ∧
    (mkDialRequest "room1" (Json.str "+15551234567")).waitUntilAnswered = true ∧
    (mkDialRequest "room1" (Json.str "+15551234567")).roomName = envOutboundOk.roomName ∧
    resolveIntent envOutboundOk =
      Except.ok (CallIntent.outbound (mkDialRequest "room1" (Json.str "+15551234567")).sipCallTo) := by
  refine dial_request_fields envOutboundOk (mkDialRequest "room1" (Json.str "+15551234567")) ?_
  have hev : (entrypoint envOutboundOk).events =
      [Event.egressOk "EG_1",
       Event.dialRequested (mkDialRequest "room1" (Json.str "+15551234567")),
       Event.sessionConstructed, Event.sessionStarted] := rfl
  rw [hev]
  exact List.mem_cons_of_mem _ (List.mem_cons_self _ _)

/-- C10: a job whose metadata parses to an object carrying an empty-string
`phone_number` is treated exactly as inbound: `if phone_number:` is falsy,
so no dial is attempted, the session is started and the greeting is sent. -/
theorem empty_phone_treated_inbound (env : Env) (s : String)
    (fields : List (String × Json))
    (hconn : env.connectOk = true)
    (hmeta : env.metadata = some s) (hs : s ≠ "")
    (hparse : env.parseJson s = some (.obj fields))
    (hfield : lookupField fields "phone_number" = some (Json.str ""))
    (hsess : env.sessionStartOk = true) :
    resolveIntent env = Except.ok CallIntent.inbound ∧
    dials (entrypoint env).events = 0 ∧
    hasSessionStarted (entrypoint env).events = true ∧
    greetings (entrypoint env).events = 1 := by
  have hp : resolvePhone env = Except.ok (some (Json.str "")) := by
    simp [resolvePhone, hmeta, hs, hparse, hfield]
  have ht : pyTruthy (Json.str "") = false := rfl
  have hds : dialStep env (some (Json.str "")) = none := rfl
  have hin : resolveIntent env = Except.ok CallIntent.inbound := by
    simp [resolveIntent, hp, ht]
  rw [entrypoint_connected env hconn]
  obtain ⟨hd0, hg0, -, hst0, -⟩ := egress_obs env
  refine ⟨hin, ?_, ?_, ?_⟩ <;>
    simp [corePart, hp, hds, sessionPart, hsess, dials_append, hd0, dials,
      hasSessionStarted_append, hst0, hasSessionStarted, greetings_append,
      hg0, greetings]

/-- C10 witness: a concrete job carrying `phone_number = ""`. -/
theorem empty_phone_treated_inbound_witness :
    resolveIntent envEmptyPhone = Except.ok CallIntent.inbound ∧
    dials (entrypoint envEmptyPhone).events = 0 ∧
    hasSessionStarted (entrypoint envEmptyPhone).events = true ∧
    greetings (entrypoint envEmptyPhone).events = 1 :=
  empty_phone_treated_inbound envEmptyPhone "m" [("phone_number", Json.str "")]
    rfl rfl (by decide) rfl rfl rfl

theorem lookupField_none_any (fields : List (String × Json)) (k : String)
    (h : lookupField fields k = none) :
    fields.any (fun p => p.1 == k) = false := by
  induction fields with
  | nil => rfl
  | cons p rest ih =>
    cases hpk : (p.1 == k)
    · rw [List.any_cons, hpk, Bool.false_or]
      refine ih ?_
      simpa only [lookupField, hpk, Bool.false_eq_true, if_false] using h
    · simp only [lookupField, hpk, if_true] at h
      exact absurd h (by simp)

theorem lookupField_some_any (fields : List (String × Json)) (k : String)
    (j : Json) (h : lookupField fields k = some j) :
    fields.any (fun p => p.1 == k) = true := by
  induction fields with
  | nil => simp [lookupField] at h
  | cons p rest ih =>
    cases hpk : (p.1 == k)
    · rw [List.any_cons, hpk, Bool.false_or]
      refine ih ?_
      simpa only [lookupField, hpk, Bool.false_eq_true, if_false] using h
    · rw [List.any_cons, hpk, Bool.true_or]

theorem weatherRequest_ok (http : String → Except String HttpResp)
    (url location : String) (r : HttpResp) (h : http url = Except.ok r) :
    weatherRequest http url location =
      if r.status ≠ 200 then Except.ok (statusMsg r.status)
      else
        match r.jsonBody with
        | .error e => .error e
        | .ok data => weatherFromData location data := by
  unfold weatherRequest
  rw [h]

theorem weatherFromData_benign (location : String) (d : Json)
    (h : BenignData d) : ∃ s, weatherFromData location d = Except.ok s := by
  obtain ⟨fields, rfl, hcase⟩ := h
  rcases hcase with hw | ⟨w, hw, hwf⟩ | ⟨rest, f0, mf, hw, hdesc, hmain, htemp⟩
  · exact ⟨noDataMsg, by
      simp [weatherFromData, pyContains, lookupField_none_any fields "weather" hw]⟩
  · exact ⟨noDataMsg, by
      simp [weatherFromData, pyContains, lookupField_some_any fields "weather" w hw,
        pyGetItemStr, hw, hwf]⟩
  · obtain ⟨dsc, hdsc⟩ := Option.isSome_iff_exists.mp hdesc
    obtain ⟨tmp, htmp⟩ := Option.isSome_iff_exists.mp htemp
    refine ⟨weatherSentence location (pyStr dsc) (pyStr tmp), ?_⟩
    simp [weatherFromData, pyContains,
      lookupField_some_any fields "weather" _ hw, pyGetItemStr, hw, pyTruthy,
      pyGetItemNat, hdsc, hmain, htmp]

/-- C4 counterexample: with a configured key and a provider answering 200
with JSON `{"weather":[{"description":"clear sky"}]}` (no `main` entry),
`get_weather` raises a `KeyError` past its boundary instead of returning a
string: the claim fails on this provider behaviour. -/
theorem weather_raises_on_missing_main :
    (get_weather (some "K1")
        (fun _ => Except.ok ⟨200, Except.ok bodyNoMain⟩) "Paris").1 =
      Except.error "KeyError" := rfl

/-- C4 (amended): `get_weather` returns a string on every exit path the code
explicitly handles — missing/empty key, every non-200 status, and every 200
JSON body whose weather data is absent, falsy, or complete — but it can
raise when the request itself fails, the body is not JSON, or a 200 body
carries weather data without `weather[0].description` or `main.temp`. -/
theorem get_weather_benign_total (apiKey : Option String)
    (http : String → Except String HttpResp) (location : String)
    (h : apiKey = none ∨
      ∃ k, apiKey = some k ∧ (k = "" ∨ ∀ url, BenignResp (http url))) :
    ∃ s, (get_weather apiKey http location).1 = Except.ok s := by
  rcases h with h | ⟨k, hk, h⟩
  · subst h
    exact ⟨keyNotSetMsg, rfl⟩
  · subst hk
    rcases h with h | h
    · subst h
      exact ⟨keyNotSetMsg, rfl⟩
    · by_cases hk0 : k = ""
      · subst hk0
        exact ⟨keyNotSetMsg, rfl⟩
      · simp only [get_weather, if_neg hk0]
        obtain ⟨r, hr, hcase⟩ := h (weatherUrl location k)
        rw [weatherRequest_ok http (weatherUrl location k) location r hr]
        by_cases hst : r.status ≠ 200
        · rw [if_pos hst]
          exact ⟨statusMsg r.status, rfl⟩
        · rw [if_neg hst]
          rcases hcase with hst2 | ⟨d, hd, hbd⟩
          · exact absurd hst2 (by simpa using hst)
          · rw [hd]
            exact weatherFromData_benign location d hbd

/-- C4 (amended) witness: a job with no configured key returns a string. -/
theorem get_weather_benign_total_witness :
    ∃ s, (get_weather none (fun _ => Except.error "net down") "Paris").1 =
      Except.ok s :=
  get_weather_benign_total none (fun _ => Except.error "net down") "Paris"
    (Or.inl rfl)

/-- C6 counterexample: a provider temperature of 21.33 is reported as
"21.33", not with the fixed one-decimal formatting "21.3" the claim
states — the source interpolates the float with the default Python
formatting, no `:.1f` specifier. -/
theorem weather_not_one_decimal :
    (get_weather (some "K1")
        (fun _ => Except.ok ⟨200, Except.ok bodyTemp2133⟩) "Paris").1 =
      Except.ok (weatherSentence "Paris" "clear sky" "21.33") ∧
    specOneDecimal (mkRat 2133 100) = "21.3" ∧
    weatherSentence "Paris" "clear sky" "21.33" ≠
      weatherSentence "Paris" "clear sky" (specOneDecimal (mkRat 2133 100)) := by
  refine ⟨rfl, ?_, ?_⟩
  · rfl
  · intro hcontra
    rw [show specOneDecimal (mkRat 2133 100) = "21.3" from rfl] at hcontra
    exact absurd hcontra (by decide)

/-- C6 (amended): on a 200 response whose JSON body carries a description
and a temperature, `get_weather` returns the fixed sentence combining the
location, the description and the temperature rendered with the default Python
default formatting (`21.3` renders as "21.3", but no one-decimal rounding
is applied). -/
theorem weather_success_sentence (k location : String)
    (http : String → Except String HttpResp)
    (fields f0 mf : List (String × Json)) (rest : List Json) (desc tempV : Json)
    (hk : k ≠ "")
    (hhttp : http (weatherUrl location k) =
      Except.ok ⟨200, Except.ok (Json.obj fields)⟩)
    (hw : lookupField fields "weather" = some (.arr (Json.obj f0 :: rest)))
    (hdesc : lookupField f0 "description" = some desc)
    (hmain : lookupField fields "main" = some (.obj mf))
    (htemp : lookupField mf "temp" = some tempV) :
    (get_weather (some k) http location).1 =
      Except.ok (weatherSentence location (pyStr desc) (pyStr tempV)) := by
  simp only [get_weather, if_neg hk]
  rw [weatherRequest_ok http (weatherUrl location k) location _ hhttp]
  simp [weatherFromData, pyContains, lookupField_some_any fields "weather" _ hw,
    pyGetItemStr, hw, pyTruthy, pyGetItemNat, hdesc, hmain, htemp]

/-- C6 (amended) witness: the example from the spec itself, provider temp 21.3. -/
theorem weather_success_sentence_witness :
    (get_weather (some "K1")
        (fun _ => Except.ok ⟨200, Except.ok bodyFull⟩) "Paris").1 =
      Except.ok "The weather in Paris is clear sky with a temperature of 21.3°C." := by
  have h := weather_success_sentence "K1" "Paris"
    (fun _ => Except.ok ⟨200, Except.ok bodyFull⟩)
    [("weather", .arr [.obj [("description", .str "clear sky")]]),
     ("main", .obj [("temp", .num ⟨mkRat 213 10, "21.3"⟩)])]
    [("description", .str "clear sky")] [("temp", .num ⟨mkRat 213 10, "21.3"⟩)] []
    (.str "clear sky") (.num ⟨mkRat 213 10, "21.3"⟩)
    (by decide) rfl rfl rfl rfl rfl
  rw [h]
  rfl

/-- C7 counterexample: HTTP 204 is a 2xx status, and with an empty
`weather` array the code returns the status sentence, not the fixed
no-data sentence — the status branch tests `!= 200`, not "non-2xx". -/
theorem status204_not_nodata :
    (get_weather (some "K1")
        (fun _ => Except.ok ⟨204, Except.ok bodyEmptyWeather⟩) "Paris").1 =
      Except.ok (statusMsg 204) ∧
    statusMsg 204 ≠ noDataMsg :=
  ⟨rfl, by decide⟩

/-- C7 (amended): every non-200 status (in particular every non-2xx one)
yields the sentence reporting the numeric status, and a 200 response whose
JSON object body lacks a `weather` entry or carries a falsy one yields the
fixed no-data sentence — both as normal returns. -/
theorem weather_non200_and_nodata (k location : String)
    (http : String → Except String HttpResp) (r : HttpResp)
    (hk : k ≠ "")
    (hhttp : http (weatherUrl location k) = Except.ok r) :
    (r.status ≠ 200 →
      (get_weather (some k) http location).1 = Except.ok (statusMsg r.status)) ∧
    (∀ fields, r.status = 200 → r.jsonBody = Except.ok (Json.obj fields) →
      (lookupField fields "weather" = none ∨
       ∃ w, lookupField fields "weather" = some w ∧ pyTruthy w = false) →
      (get_weather (some k) http location).1 = Except.ok noDataMsg) := by
  constructor
  · intro hst
    simp only [get_weather, if_neg hk]
    rw [weatherRequest_ok http (weatherUrl location k) location r hhttp,
      if_pos hst]
  · intro fields hst hbody hw
    simp only [get_weather, if_neg hk]
    rw [weatherRequest_ok http (weatherUrl location k) location r hhttp,
      if_neg (by simp [hst]), hbody]
    rcases hw with hw | ⟨w, hw, hwf⟩
    · simp [weatherFromData, pyContains, lookupField_none_any fields "weather" hw]
    · simp [weatherFromData, pyContains, lookupField_some_any fields "weather" w hw,
        pyGetItemStr, hw, hwf]

/-- C7 (amended) witness: HTTP 404 reports 404; a 200 with an empty
`weather` array yields the no-data sentence. -/
theorem weather_non200_and_nodata_witness :
    (get_weather (some "K1")
        (fun _ => Except.ok ⟨404, Except.ok Json.null⟩) "Paris").1 =
      Except.ok (statusMsg 404) ∧
    (get_weather (some "K1")
        (fun _ => Except.ok ⟨200, Except.ok bodyEmptyWeather⟩) "Paris").1 =
      Except.ok noDataMsg := by
  constructor
  · exact (weather_non200_and_nodata "K1" "Paris"
      (fun _ => Except.ok ⟨404, Except.ok Json.null⟩) ⟨404, Except.ok Json.null⟩
      (by decide) rfl).1 (by decide)
  · exact (weather_non200_and_nodata "K1" "Paris"
      (fun _ => Except.ok ⟨200, Except.ok bodyEmptyWeather⟩)
      ⟨200, Except.ok bodyEmptyWeather⟩ (by decide) rfl).2
      [("weather", .arr [])] rfl rfl (Or.inr ⟨.arr [], rfl, rfl⟩)

/-- C8: with no configured API key, `get_weather` returns the fixed
"key not set" sentence, fetches no URL, and raises nothing — for every
location and every provider behaviour. -/
theorem no_key_fixed_sentence (http : String → Except String HttpResp)
    (location : String) :
    get_weather none http location = (Except.ok keyNotSetMsg, []) := rfl

end AgentPy
